import Mathlib

set_option maxRecDepth 8000

/-!
Verification of the BEMS telemetry engine of `src/app.py`: the schedule
oracle `is_ac_on`, the signal synthesizer `generate_room_data`, the cached
dataset builder `load_data`, the range filter `filter_by_range` and the
aggregators.

Modelling conventions:
* timestamps are whole minutes since the horizon start
  `START_DATE = 2025-11-01 00:00` (a Saturday, Python weekday index 5);
* analog float values (volts, amps, kilowatts, kilowatt-hours) are
  rationals;
* the ambient numpy global random generator is an abstract source of
  draws indexed by a running counter: each scalar draw consumes one index,
  an array draw of size `n` consumes `n` consecutive indices, in the order
  the Python code performs the draws;
* a Python function that may raise is embedded with an `Except` codomain,
  returning `.ok` exactly where the Python code returns normally.
-/

namespace BEMS

/-- Horizon start `START_DATE = datetime(2025, 11, 1)`, as minutes since
itself, i.e. the epoch of the model. -/
def START_MIN : ℕ := 0

/-- Horizon end `END_DATE = datetime(2025, 11, 15, 23, 45)`:
14 days and 23:45, i.e. 14 * 1440 + 1425 = 21585 minutes past the epoch. -/
def END_MIN : ℕ := 21585

/-- `TIME_FREQ_MIN = 15`, minutes between data points. -/
def TIME_FREQ_MIN : ℕ := 15

/-- `TARIFF_PER_KWH = 8.0` (BDT per kWh). -/
def TARIFF_PER_KWH : ℚ := 8

/-- `CO2_PER_KWH_KG = 0.6` (kg CO2 per kWh). -/
def CO2_PER_KWH_KG : ℚ := 3 / 5

/-- Python weekday index of 2025-11-01, which is a Saturday (Mon = 0). -/
def START_WEEKDAY : ℕ := 5

/-- `ts.weekday()` for a timestamp given in minutes since the epoch. -/
def weekday (m : ℕ) : ℕ := (START_WEEKDAY + m / 1440) % 7

/-- `ts.time()` at minute resolution: minutes past midnight. -/
def time_of_day (m : ℕ) : ℕ := m % 1440

/-- `WEEKDAY_SCHEDULE = [(time(9, 0), time(12, 0)), (time(13, 0), time(17, 0))]`
as minutes past midnight. -/
def WEEKDAY_SCHEDULE : List (ℕ × ℕ) := [(540, 720), (780, 1020)]

/-- `is_ac_on(ts)`: false on Saturday and Sunday (`weekday >= 5`), otherwise
true iff the time of day lies in some schedule window, both bounds
inclusive (`start_t <= t <= end_t`). -/
def is_ac_on (m : ℕ) : Bool :=
  if 5 ≤ weekday m then false
  else WEEKDAY_SCHEDULE.any fun w =>
    decide (w.1 ≤ time_of_day m) && decide (time_of_day m ≤ w.2)

/-- The ambient numpy random generator, abstractly: `uniform lo hi i` is the
scalar `np.random.uniform(lo, hi)` drawn at global draw index `i`, and
`normal mu sigma i` the scalar `np.random.normal(mu, sigma)` drawn at global
draw index `i`.  The only fact the code relies on is that a uniform draw
falls in its half-open range. -/
structure RandomSource where
  uniform : ℚ → ℚ → ℕ → ℚ
  normal : ℚ → ℚ → ℕ → ℚ
  uniform_mem : ∀ lo hi i, lo < hi → lo ≤ uniform lo hi i ∧ uniform lo hi i < hi

/-- One row of the generated DataFrame: the columns of `generate_room_data`. -/
structure Sample where
  timestamp : ℕ
  floor : String
  room_id : String
  room_name : String
  voltage : ℚ
  current : ℚ
  power_kw : ℚ
  energy_kwh_step : ℚ
  is_on : Bool
deriving DecidableEq

/-- Number of grid points of `pd.date_range(s, e, freq)` for a positive
`freq` of `st` minutes: all points `s + i * st ≤ e`, none when `e < s`. -/
def grid_len (s e st : ℕ) : ℕ := if s ≤ e then (e - s) / st + 1 else 0

/-- `pd.date_range(s, e, freq)` for a positive `freq` of `st` minutes. -/
def date_range (s e st : ℕ) : List ℕ :=
  (List.range (grid_len s e st)).map fun i => s + i * st

/-- Row `i` of the synthesized series: `c1` is the draw index right after the
two baseline draws, `n` the grid length.  `np.where(is_on, A, B)` draws both
full arrays, so the active voltage array occupies indices `c1 .. c1+n-1`, the
idle voltage array the next `n`, then the two current arrays likewise.
`power_kw = np.clip(voltage * current / 1000, 0, None)` and
`energy_kwh_step = power_kw * (st / 60)`. -/
def room_sample (rng : RandomSource) (c1 n : ℕ) (room_id fl room_name : String)
    (base_current base_voltage : ℚ) (s st i : ℕ) : Sample :=
  let ts := s + i * st
  let acOn := is_ac_on ts
  let voltage := if acOn then rng.normal base_voltage 2 (c1 + i)
                 else rng.normal (base_voltage - 2) 1 (c1 + n + i)
  let current := if acOn then rng.normal base_current (4/5) (c1 + 2*n + i)
                 else rng.normal (3/10) (1/10) (c1 + 3*n + i)
  let power_kw := max 0 (voltage * current / 1000)
  let energy := power_kw * ((st : ℚ) / 60)
  ⟨ts, fl, room_id, room_name, voltage, current, power_kw, energy, acOn⟩

/-- `generate_room_data` with the horizon `[s, e]` kept as a parameter (the
source fixes `s = START_MIN`, `e = END_MIN`; the step is the source's
positive constant `TIME_FREQ_MIN`).  `c0` is the global draw index on entry:
the code first draws `base_current = np.random.uniform(7.0, 10.0)` and
`base_voltage = np.random.uniform(225.0, 235.0)`, then the four size-`n`
normal arrays, consuming `2 + 4n` draws in total. -/
def generate_room_data_h (rng : RandomSource) (c0 : ℕ)
    (room_id fl room_name : String) (s e : ℕ) : List Sample × ℕ :=
  let n := grid_len s e TIME_FREQ_MIN
  let base_current := rng.uniform 7 10 c0
  let base_voltage := rng.uniform 225 235 (c0 + 1)
  (((List.range n).map fun i =>
      room_sample rng (c0 + 2) n room_id fl room_name base_current base_voltage
        s TIME_FREQ_MIN i),
   c0 + 2 + 4 * n)

/-- `generate_room_data(room_id, floor, room_name)` as in the source, over the
fixed horizon `[START_MIN, END_MIN]`. -/
def generate_room_data (rng : RandomSource) (c0 : ℕ)
    (room_id fl room_name : String) : List Sample × ℕ :=
  generate_room_data_h rng c0 room_id fl room_name START_MIN END_MIN

/-- The `FLOORS` configuration dictionary (insertion-ordered). -/
def FLOORS : List (String × List (String × String)) :=
  [("Floor 1", [("F1-101", "Computer Lab 1"), ("F1-102", "Computer Lab 2"),
                ("F1-103", "Faculty Room 1")]),
   ("Floor 2", [("F2-201", "Classroom 201"), ("F2-202", "Classroom 202"),
                ("F2-203", "Seminar Room")]),
   ("Floor 3", [("F3-301", "Classroom 301"), ("F3-302", "Classroom 302"),
                ("F3-303", "Conference Room")])]

/-- The room specs `(room_id, floor, room_name)` in the order the nested
loop of `load_data` visits them (`for floor, rooms in FLOORS.items(): for
room_id, room_name in rooms`). -/
def room_specs : List (String × String × String) :=
  FLOORS.flatMap fun fl => fl.2.map fun r => (r.1, fl.1, r.2)

/-- The loop body of `load_data`: synthesize each room in turn, threading the
global draw counter, and concatenate the frames (`pd.concat`). -/
def build_rooms (rng : RandomSource) :
    List (String × String × String) → ℕ → List Sample × ℕ
  | [], c => ([], c)
  | sp :: rest, c =>
    let head := generate_room_data rng c sp.1 sp.2.1 sp.2.2
    let tail := build_rooms rng rest head.2
    (head.1 ++ tail.1, tail.2)

/-- `load_data()` body (without the cache decorator): the full dataset for
all rooms, plus the final draw counter. -/
def load_data (rng : RandomSource) (c0 : ℕ) : List Sample × ℕ :=
  build_rooms rng room_specs c0

/-- The state of the `@st.cache_data` memoization of `load_data` within one
cache epoch: the cached frame, if any, and the global draw counter. -/
structure CacheState where
  cached : Option (List Sample)
  counter : ℕ

/-- `get_dataset`: calling the `@st.cache_data`-decorated `load_data`.  On a
hit the cached frame is served; on a miss the body runs (consuming random
draws) and its result is stored. -/
def get_dataset (rng : RandomSource) (st : CacheState) :
    List Sample × CacheState :=
  match st.cached with
  | some d => (d, st)
  | none =>
    let built := load_data rng st.counter
    (built.1, ⟨some built.1, built.2⟩)

/-- `filter_by_range(df, start_dt, end_dt)`:
`df[(df["timestamp"] >= start_dt) & (df["timestamp"] <= end_dt)]`. -/
def filter_by_range (df : List Sample) (start_dt end_dt : ℕ) : List Sample :=
  df.filter fun x => decide (start_dt ≤ x.timestamp) && decide (x.timestamp ≤ end_dt)

/-- The error outcomes the specification names, plus `stopped` for
`st.stop()` (the only abnormal exit the source actually performs). -/
inductive AppError
  | invalidConfiguration
  | invalidRange
  | stopped
deriving DecidableEq

/-- Running the synthesizer body as a Python call that may raise: the body
raises nothing for any horizon (with the source's positive step,
`pd.date_range` simply yields an empty grid when `e < s`), so the result is
always `.ok`. -/
def generate_room_data_run (rng : RandomSource) (c0 : ℕ)
    (room_id fl room_name : String) (s e : ℕ) : Except AppError (List Sample) :=
  .ok (generate_room_data_h rng c0 room_id fl room_name s e).1

/-- Running `filter_by_range` as a Python call that may raise: the body is a
pure boolean mask and raises nothing, so the result is always `.ok`. -/
def filter_by_range_run (df : List Sample) (s e : ℕ) :
    Except AppError (List Sample) :=
  .ok (filter_by_range df s e)

/-- The query pipeline of `main` (lines 663-671): stop when
`end_dt <= start_dt`, otherwise filter; stop when the filtered frame is
empty, otherwise hand the frame to the views. -/
def main_query (df : List Sample) (s e : ℕ) : Except AppError (List Sample) :=
  if e ≤ s then .error .stopped
  else
    let r := filter_by_range df s e
    if r = [] then .error .stopped else .ok r

/-- `aggregate_energy(df)`: `(total_energy, total_cost, total_co2_kg)` with
`total_energy = df["energy_kwh_step"].sum()` (zero on an empty frame),
`total_cost = total_energy * TARIFF_PER_KWH`,
`total_co2_kg = total_energy * CO2_PER_KWH_KG`. -/
def aggregate_energy (df : List Sample) : ℚ × ℚ × ℚ :=
  let total_energy := (df.map Sample.energy_kwh_step).sum
  (total_energy, total_energy * TARIFF_PER_KWH, total_energy * CO2_PER_KWH_KG)

/-- `df.groupby(key)["energy_kwh_step"].sum()` for an arbitrary grouping key,
as in `building_overview` (`groupby("floor")`) and the other rollups: one row
per distinct key value, holding the sum of `energy_kwh_step` over the rows
with that key.  (pandas orders groups by sorted key; group order is
irrelevant to the totals, so the distinct keys are taken in first-occurrence
order here.) -/
def energy_by_key {κ : Type} [DecidableEq κ] (df : List Sample)
    (key : Sample → κ) : List (κ × ℚ) :=
  ((df.map key).dedup).map fun g =>
    (g, ((df.filter fun x => decide (key x = g)).map Sample.energy_kwh_step).sum)

/-- A concrete random source for witnesses: every uniform draw returns its
lower bound, every normal draw its mean. -/
def rng0 : RandomSource where
  uniform := fun lo _ _ => lo
  normal := fun mu _ _ => mu
  uniform_mem := fun lo _ _ h => ⟨le_refl lo, h⟩

/-- The draw of `generate_room_data` line 137:
`base_current = np.random.uniform(7.0, 10.0)`, performed once per room at
draw index `c0`. -/
def base_current_of (rng : RandomSource) (c0 : ℕ) : ℚ := rng.uniform 7 10 c0

/-- The draw of `generate_room_data` line 138:
`base_voltage = np.random.uniform(225.0, 235.0)`, performed once per room at
draw index `c0 + 1`. -/
def base_voltage_of (rng : RandomSource) (c0 : ℕ) : ℚ := rng.uniform 225 235 (c0 + 1)

/-- The first sample of the first room under `rng0` starting at draw index 0
(a concrete row used to instantiate universally quantified theorems). -/
def sample0 : Sample :=
  room_sample rng0 2 1440 "F1-101" "Floor 1" "Computer Lab 1" 7 225 0 15 0

/-- A standalone concrete row used to instantiate theorems that range over
arbitrary datasets. -/
def sample_a : Sample :=
  ⟨100, "Floor 1", "F1-101", "Computer Lab 1", 230, 8, 230 * 8 / 1000,
   230 * 8 / 1000 / 4, true⟩

/-- A second standalone concrete row, on another floor. -/
def sample_b : Sample :=
  ⟨200, "Floor 2", "F2-201", "Classroom 201", 228, 1, 228 * 1 / 1000,
   228 * 1 / 1000 / 4, false⟩

end BEMS

namespace BEMS

/-- C3: for every timestamp, the schedule oracle returns false when the
weekday is outside the active set Mon-Fri, and on an active weekday it
returns true exactly when the time of day lies, inclusively on both ends,
in some configured window. -/
theorem C3_schedule_oracle (m : ℕ) :
    (5 ≤ weekday m → is_ac_on m = false) ∧
    (weekday m < 5 →
      (is_ac_on m = true ↔
        ∃ w ∈ WEEKDAY_SCHEDULE, w.1 ≤ time_of_day m ∧ time_of_day m ≤ w.2)) := by
  constructor
  · intro h
    simp [is_ac_on, h]
  · intro h
    have h5 : ¬ 5 ≤ weekday m := by omega
    simp [is_ac_on, h5, List.any_eq_true]

/-- Witness for C3: Saturday 2025-11-01 10:00 (minute 600) is inactive;
Monday 2025-11-03 09:00 (minute 3420), an inclusive window boundary, is
active. -/
theorem C3_schedule_oracle_witness :
    is_ac_on 600 = false ∧ is_ac_on 3420 = true := by
  constructor
  · exact (C3_schedule_oracle 600).1 (by decide)
  · exact ((C3_schedule_oracle 3420).2 (by decide)).mpr
      ⟨(540, 720), by decide, by decide, by decide⟩

/-- C10: aggregating an empty subset yields exactly zero energy, zero cost
and zero emissions, rather than failing. -/
theorem C10_aggregate_empty : aggregate_energy [] = (0, 0, 0) := by
  simp [aggregate_energy]

/-- C6: within one cache epoch, a second `get_dataset` call returns exactly
the dataset the first call returned (the build is memoized by
`st.cache_data`). -/
theorem C6_get_dataset_idempotent (rng : RandomSource) (st : CacheState) :
    (get_dataset rng (get_dataset rng st).2).1 = (get_dataset rng st).1 := by
  cases h : st.cached <;> simp [get_dataset, h]

/-- C5: every generated sample has `power_kw = max 0 (voltage * current /
1000)` (hence never negative) and `energy_kwh_step = power_kw *
(TIME_FREQ_MIN / 60)`. -/
theorem C5_power_clamp (rng : RandomSource) (c0 : ℕ) (rid fl nm : String) :
    ∀ x ∈ (generate_room_data rng c0 rid fl nm).1,
      x.power_kw = max 0 (x.voltage * x.current / 1000) ∧
      0 ≤ x.power_kw ∧
      x.energy_kwh_step = x.power_kw * ((TIME_FREQ_MIN : ℚ) / 60) := by
  intro x hx
  simp only [generate_room_data, generate_room_data_h, List.mem_map,
    List.mem_range] at hx
  obtain ⟨i, hi, rfl⟩ := hx
  exact ⟨rfl, le_max_left 0 _, rfl⟩

theorem sample0_mem :
    sample0 ∈ (generate_room_data rng0 0 "F1-101" "Floor 1" "Computer Lab 1").1 := by
  have h0 : (0 : ℕ) ∈ List.range (grid_len START_MIN END_MIN TIME_FREQ_MIN) :=
    List.mem_range.mpr (by norm_num [grid_len, START_MIN, END_MIN, TIME_FREQ_MIN])
  exact List.mem_map_of_mem _ h0

/-- Witness for C5 at the concrete first sample of room F1-101 under the
concrete random source `rng0`. -/
theorem C5_power_clamp_witness :
    sample0.power_kw = max 0 (sample0.voltage * sample0.current / 1000) ∧
    0 ≤ sample0.power_kw ∧
    sample0.energy_kwh_step = sample0.power_kw * ((TIME_FREQ_MIN : ℚ) / 60) :=
  C5_power_clamp rng0 0 "F1-101" "Floor 1" "Computer Lab 1" sample0 sample0_mem

/-- C7: for `start ≤ end`, `filter_by_range` returns exactly the samples with
`start ≤ timestamp ≤ end`, inclusively on both ends; a sample at
`end + step` (any positive step) is excluded; and the call returns normally
(an empty subset included) rather than raising. -/
theorem C7_filter_inclusive (df : List Sample) (s e : ℕ) (_hse : s ≤ e) :
    (∀ x, x ∈ filter_by_range df s e ↔
      x ∈ df ∧ s ≤ x.timestamp ∧ x.timestamp ≤ e) ∧
    (∀ st : ℕ, 0 < st → ∀ x ∈ df, x.timestamp = e + st →
      x ∉ filter_by_range df s e) ∧
    filter_by_range_run df s e = Except.ok (filter_by_range df s e) := by
  refine ⟨?_, ?_, rfl⟩
  · intro x
    simp [filter_by_range, List.mem_filter, and_assoc]
  · intro st hst x hx hts hmem
    have h := List.mem_filter.mp hmem
    simp only [Bool.and_eq_true, decide_eq_true_eq] at h
    omega

/-- Witness for C7: a sample whose timestamp equals the upper bound of the
range is included in the filtered subset. -/
theorem C7_filter_inclusive_witness :
    sample_a ∈ filter_by_range [sample_a] 0 100 := by
  have h := (C7_filter_inclusive [sample_a] 0 100 (by norm_num)).1 sample_a
  exact h.mpr ⟨List.mem_singleton_self _, by decide, by decide⟩

end BEMS

namespace BEMS

/-- Counterexample to C1 as stated: with a horizon whose end (minute 50)
precedes its start (minute 100), the synthesizer does not fail with
`InvalidConfiguration` — it returns an empty series normally, because
`pd.date_range` yields an empty grid and the body performs no validation. -/
theorem C1_counterexample :
    generate_room_data_run rng0 0 "F1-101" "Floor 1" "Computer Lab 1" 100 50
      = Except.ok [] ∧
    ¬ (∀ (rng : RandomSource) (c0 : ℕ) (rid fl nm : String) (s e : ℕ), e < s →
        generate_room_data_run rng c0 rid fl nm s e
          = Except.error AppError.invalidConfiguration) := by
  have h : generate_room_data_run rng0 0 "F1-101" "Floor 1" "Computer Lab 1" 100 50
      = Except.ok [] := rfl
  refine ⟨h, fun hall => ?_⟩
  have h2 := hall rng0 0 "F1-101" "Floor 1" "Computer Lab 1" 100 50 (by norm_num)
  rw [h] at h2
  exact absurd h2 (by simp)

/-- C1 amended: the synthesizer performs no configuration validation; with
the source's positive step, a horizon whose end precedes its start produces
an empty sample list and no error, and the shipped configuration satisfies
`0 < TIME_FREQ_MIN` and `START_MIN ≤ END_MIN`, so the invalid case never
arises in the program. -/
theorem C1_no_validation :
    (∀ (rng : RandomSource) (c0 : ℕ) (rid fl nm : String) (s e : ℕ), e < s →
      generate_room_data_run rng c0 rid fl nm s e = Except.ok []) ∧
    0 < TIME_FREQ_MIN ∧ START_MIN ≤ END_MIN := by
  refine ⟨?_, by norm_num [TIME_FREQ_MIN], by norm_num [START_MIN, END_MIN]⟩
  intro rng c0 rid fl nm s e h
  have hg : grid_len s e TIME_FREQ_MIN = 0 := by
    unfold grid_len
    rw [if_neg (by omega)]
  simp [generate_room_data_run, generate_room_data_h, hg]

/-- Witness for the amended C1 at the concrete inverted horizon (100, 50). -/
theorem C1_no_validation_witness :
    (50 : ℕ) < 100 ∧
    generate_room_data_run rng0 0 "F2-201" "Floor 2" "Classroom 201" 100 50
      = Except.ok [] :=
  ⟨by norm_num,
   C1_no_validation.1 rng0 0 "F2-201" "Floor 2" "Classroom 201" 100 50 (by norm_num)⟩

/-- Counterexample to C2 as stated: a direct `filter_by_range` call with
`end < start` (here 1 < 10) does not fail with `InvalidRange` — it returns
an empty subset normally. -/
theorem C2_counterexample :
    filter_by_range_run [sample_a] 10 1 = Except.ok [] ∧
    ¬ (∀ (df : List Sample) (s e : ℕ), e < s →
        filter_by_range_run df s e = Except.error AppError.invalidRange) := by
  have h : filter_by_range_run [sample_a] 10 1 = Except.ok [] := rfl
  refine ⟨h, fun hall => ?_⟩
  have h2 := hall [sample_a] 10 1 (by norm_num)
  rw [h] at h2
  exact absurd h2 (by simp)

/-- C2 amended: the query pipeline of `main` fails fast — it stops before
any filtering or aggregation — whenever `end_dt ≤ start_dt` (so also at
`end = start`); the bare `filter_by_range` helper performs no validation
and, for `end < start`, returns an empty subset without error. -/
theorem C2_guard :
    (∀ (df : List Sample) (s e : ℕ), e ≤ s →
      main_query df s e = Except.error AppError.stopped) ∧
    (∀ (df : List Sample) (s e : ℕ), e < s →
      filter_by_range_run df s e = Except.ok []) := by
  constructor
  · intro df s e h
    simp [main_query, h]
  · intro df s e h
    have hnil : filter_by_range df s e = [] := by
      rw [filter_by_range, List.filter_eq_nil_iff]
      intro a _
      simp only [Bool.and_eq_true, decide_eq_true_eq, not_and]
      omega
    simp [filter_by_range_run, hnil]

/-- Witness for the amended C2: the main pipeline stops at `end = start = 5`,
and a bare filter call with the inverted range (10, 1) returns `ok []`. -/
theorem C2_guard_witness :
    main_query [sample_a] 5 5 = Except.error AppError.stopped ∧
    filter_by_range_run [sample_b] 10 1 = Except.ok [] :=
  ⟨C2_guard.1 [sample_a] 5 5 (by norm_num),
   C2_guard.2 [sample_b] 10 1 (by norm_num)⟩

/-- C9: for every room, a single pair of baseline constants — the current
baseline in [7, 10) amps drawn once at index `c0` and the voltage baseline
in [225, 235) volts drawn once at index `c0 + 1` — parameterizes the
distribution of every sample of that room's series: active samples draw
voltage about the baseline voltage and current about the baseline current,
inactive samples about the shifted baseline voltage and the standby mean. -/
theorem C9_baselines (rng : RandomSource) (c0 : ℕ) (rid fl nm : String) :
    (7 ≤ base_current_of rng c0 ∧ base_current_of rng c0 < 10) ∧
    (225 ≤ base_voltage_of rng c0 ∧ base_voltage_of rng c0 < 235) ∧
    ∀ x ∈ (generate_room_data rng c0 rid fl nm).1,
      (x.is_on = true →
        (∃ j, x.voltage = rng.normal (base_voltage_of rng c0) 2 j) ∧
        (∃ j, x.current = rng.normal (base_current_of rng c0) (4/5) j)) ∧
      (x.is_on = false →
        (∃ j, x.voltage = rng.normal (base_voltage_of rng c0 - 2) 1 j) ∧
        (∃ j, x.current = rng.normal (3/10) (1/10) j)) := by
  refine ⟨rng.uniform_mem 7 10 c0 (by norm_num),
    rng.uniform_mem 225 235 (c0 + 1) (by norm_num), ?_⟩
  intro x hx
  simp only [generate_room_data, generate_room_data_h, List.mem_map,
    List.mem_range] at hx
  obtain ⟨i, hi, rfl⟩ := hx
  constructor
  · intro hon
    have hon2 : is_ac_on (START_MIN + i * TIME_FREQ_MIN) = true := hon
    constructor
    · exact ⟨c0 + 2 + i, by simp [room_sample, base_voltage_of, hon2]⟩
    · exact ⟨c0 + 2 + 2 * grid_len START_MIN END_MIN TIME_FREQ_MIN + i,
        by simp [room_sample, base_current_of, hon2]⟩
  · intro hoff
    have hoff2 : is_ac_on (START_MIN + i * TIME_FREQ_MIN) = false := hoff
    constructor
    · exact ⟨c0 + 2 + grid_len START_MIN END_MIN TIME_FREQ_MIN + i,
        by simp [room_sample, base_voltage_of, hoff2]⟩
    · exact ⟨c0 + 2 + 3 * grid_len START_MIN END_MIN TIME_FREQ_MIN + i,
        by simp [room_sample, hoff2]⟩

/-- Witness for C9 under the concrete random source `rng0`: the baseline
current is in range, and the first sample of room F1-101 (a Saturday, so
inactive) draws its voltage about the shifted baseline voltage. -/
theorem C9_baselines_witness :
    (7 ≤ base_current_of rng0 0 ∧ base_current_of rng0 0 < 10) ∧
    (∃ j, sample0.voltage = rng0.normal (base_voltage_of rng0 0 - 2) 1 j) := by
  obtain ⟨h1, _, h3⟩ := C9_baselines rng0 0 "F1-101" "Floor 1" "Computer Lab 1"
  refine ⟨h1, ?_⟩
  have hoff : sample0.is_on = false := by decide
  exact ((h3 sample0 sample0_mem).2 hoff).1

end BEMS

namespace BEMS

theorem gen_room_id (rng : RandomSource) (c0 : ℕ) (rid fl nm : String) (s e : ℕ) :
    ∀ x ∈ (generate_room_data_h rng c0 rid fl nm s e).1, x.room_id = rid := by
  intro x hx
  simp only [generate_room_data_h, List.mem_map, List.mem_range] at hx
  obtain ⟨i, _, rfl⟩ := hx
  rfl

theorem gen_timestamps (rng : RandomSource) (c0 : ℕ) (rid fl nm : String) (s e : ℕ) :
    ((generate_room_data_h rng c0 rid fl nm s e).1).map Sample.timestamp
      = date_range s e TIME_FREQ_MIN := by
  simp only [generate_room_data_h, date_range, List.map_map]
  rfl

theorem date_range_nodup (s e st : ℕ) (hst : 0 < st) :
    (date_range s e st).Nodup := by
  refine (List.nodup_range _).map ?_
  intro i j hij
  have h2 : s + i * st = s + j * st := hij
  have h3 : i * st = j * st := by omega
  exact Nat.eq_of_mul_eq_mul_right hst h3

theorem date_range_len (s e st : ℕ) (hse : s ≤ e) :
    (date_range s e st).length = (e - s) / st + 1 := by
  simp [date_range, grid_len, hse]

theorem build_room_ids (rng : RandomSource) :
    ∀ (specs : List (String × String × String)) (c : ℕ),
      ∀ x ∈ (build_rooms rng specs c).1,
        x.room_id ∈ specs.map fun sp => sp.1 := by
  intro specs
  induction specs with
  | nil => intro c x hx; simp [build_rooms] at hx
  | cons sp rest ih =>
    intro c x hx
    simp only [build_rooms, List.mem_append] at hx
    rcases hx with h | h
    · exact List.mem_cons.mpr
        (Or.inl (gen_room_id rng c sp.1 sp.2.1 sp.2.2 START_MIN END_MIN x h))
    · exact List.mem_cons.mpr (Or.inr (ih _ x h))

theorem build_rooms_filter (rng : RandomSource) :
    ∀ (specs : List (String × String × String)) (c : ℕ),
      (specs.map fun sp => sp.1).Nodup →
      ∀ sp ∈ specs, ∃ c2,
        ((build_rooms rng specs c).1.filter fun x => decide (x.room_id = sp.1))
          = (generate_room_data rng c2 sp.1 sp.2.1 sp.2.2).1 := by
  intro specs
  induction specs with
  | nil => intro c _ sp hsp; exact absurd hsp (List.not_mem_nil _)
  | cons sp0 rest ih =>
    intro c hnd sp hsp
    rw [List.map_cons, List.nodup_cons] at hnd
    rcases List.mem_cons.mp hsp with rfl | hmem
    · refine ⟨c, ?_⟩
      simp only [build_rooms, List.filter_append]
      have h1 : (generate_room_data rng c sp.1 sp.2.1 sp.2.2).1.filter
          (fun x => decide (x.room_id = sp.1))
          = (generate_room_data rng c sp.1 sp.2.1 sp.2.2).1 := by
        apply List.filter_eq_self.mpr
        intro x hx
        simp [gen_room_id rng c sp.1 sp.2.1 sp.2.2 START_MIN END_MIN x hx]
      have h2 : (build_rooms rng rest
            (generate_room_data rng c sp.1 sp.2.1 sp.2.2).2).1.filter
          (fun x => decide (x.room_id = sp.1)) = [] := by
        apply List.filter_eq_nil_iff.mpr
        intro x hx
        have hxid := build_room_ids rng rest _ x hx
        simp only [decide_eq_true_eq]
        intro hcontra
        exact hnd.1 (hcontra ▸ hxid)
      rw [h1, h2, List.append_nil]
    · obtain ⟨c2, hc2⟩ :=
        ih (generate_room_data rng c sp0.1 sp0.2.1 sp0.2.2).2 hnd.2 sp hmem
      refine ⟨c2, ?_⟩
      simp only [build_rooms, List.filter_append]
      have hne : sp0.1 ≠ sp.1 := by
        intro hcontra
        exact hnd.1 (hcontra ▸ List.mem_map_of_mem (fun sp => sp.1) hmem)
      have h0 : (generate_room_data rng c sp0.1 sp0.2.1 sp0.2.2).1.filter
          (fun x => decide (x.room_id = sp.1)) = [] := by
        apply List.filter_eq_nil_iff.mpr
        intro x hx
        have hxid := gen_room_id rng c sp0.1 sp0.2.1 sp0.2.2 START_MIN END_MIN x hx
        simp only [decide_eq_true_eq]
        intro hcontra
        exact hne (hxid ▸ hcontra)
      rw [h0, hc2, List.nil_append]

/-- C4: for every configured unit, the timestamps of that unit's samples in
the built dataset are exactly the regular 15-minute grid over the horizon —
no gaps, no duplicates — and the per-unit sample count is exactly
`(END_MIN - START_MIN) / TIME_FREQ_MIN + 1` (= 1440); the grid reaches
`END_MIN` exactly. -/
theorem C4_unit_grid (rng : RandomSource) (c0 : ℕ)
    (sp : String × String × String) (hsp : sp ∈ room_specs) :
    ((load_data rng c0).1.filter fun x => decide (x.room_id = sp.1)).map
        Sample.timestamp
      = date_range START_MIN END_MIN TIME_FREQ_MIN ∧
    (((load_data rng c0).1.filter fun x => decide (x.room_id = sp.1)).map
        Sample.timestamp).Nodup ∧
    ((load_data rng c0).1.filter fun x => decide (x.room_id = sp.1)).length
      = (END_MIN - START_MIN) / TIME_FREQ_MIN + 1 ∧
    END_MIN ∈ date_range START_MIN END_MIN TIME_FREQ_MIN := by
  have hnd : (room_specs.map fun sp => sp.1).Nodup := by decide
  obtain ⟨c2, hc2⟩ := build_rooms_filter rng room_specs c0 hnd sp hsp
  have hts : ((generate_room_data rng c2 sp.1 sp.2.1 sp.2.2).1).map Sample.timestamp
      = date_range START_MIN END_MIN TIME_FREQ_MIN :=
    gen_timestamps rng c2 sp.1 sp.2.1 sp.2.2 START_MIN END_MIN
  refine ⟨?_, ?_, ?_, ?_⟩
  · rw [load_data, hc2]
    exact hts
  · rw [load_data, hc2, hts]
    exact date_range_nodup START_MIN END_MIN TIME_FREQ_MIN (by norm_num [TIME_FREQ_MIN])
  · rw [load_data, hc2, ← List.length_map _ Sample.timestamp, hts]
    exact date_range_len START_MIN END_MIN TIME_FREQ_MIN (by norm_num [START_MIN, END_MIN])
  · refine List.mem_map.mpr ⟨1439, List.mem_range.mpr ?_, ?_⟩ <;>
      norm_num [grid_len, START_MIN, END_MIN, TIME_FREQ_MIN]

/-- Witness for C4 at the concrete room F2-203 under the concrete random
source `rng0`. -/
theorem C4_unit_grid_witness :
    ((load_data rng0 0).1.filter fun x =>
        decide (x.room_id = "F2-203")).map Sample.timestamp
      = date_range START_MIN END_MIN TIME_FREQ_MIN ∧
    (((load_data rng0 0).1.filter fun x =>
        decide (x.room_id = "F2-203")).map Sample.timestamp).Nodup ∧
    ((load_data rng0 0).1.filter fun x => decide (x.room_id = "F2-203")).length
      = (END_MIN - START_MIN) / TIME_FREQ_MIN + 1 ∧
    END_MIN ∈ date_range START_MIN END_MIN TIME_FREQ_MIN :=
  C4_unit_grid rng0 0 ("F2-203", "Floor 2", "Seminar Room") (by decide)

end BEMS

namespace BEMS

theorem sum_map_filter_split {α : Type} (p : α → Bool) (e : α → ℚ) (l : List α) :
    ((l.filter p).map e).sum + ((l.filter fun a => !(p a)).map e).sum
      = (l.map e).sum := by
  induction l with
  | nil => simp
  | cons a t ih =>
    by_cases h : p a
    · simp only [List.filter_cons, h, if_pos, Bool.not_true, if_neg,
        List.map_cons, List.sum_cons, Bool.false_eq_true, ite_false, ite_true]
      linarith [ih]
    · have h2 : p a = false := by simpa using h
      simp only [List.filter_cons, h2, Bool.not_false, List.map_cons,
        List.sum_cons, Bool.false_eq_true, ite_false, ite_true]
      linarith [ih]

theorem grouped_sum_eq {κ : Type} [DecidableEq κ] (key : Sample → κ) :
    ∀ (K : List κ), K.Nodup → ∀ (l : List Sample), (∀ x ∈ l, key x ∈ K) →
      (K.map fun g =>
          ((l.filter fun x => decide (key x = g)).map Sample.energy_kwh_step).sum).sum
        = (l.map Sample.energy_kwh_step).sum := by
  intro K
  induction K with
  | nil =>
    intro _ l hcov
    cases l with
    | nil => simp
    | cons a t => exact absurd (hcov a (List.mem_cons_self a t)) (List.not_mem_nil _)
  | cons g K ih =>
    intro hnd l hcov
    rw [List.nodup_cons] at hnd
    have hcov2 : ∀ x ∈ l.filter fun x => !(decide (key x = g)), key x ∈ K := by
      intro x hx
      have hx2 := List.mem_filter.mp hx
      have hx3 : ¬ key x = g := by simpa using hx2.2
      rcases List.mem_cons.mp (hcov x hx2.1) with h | h
      · exact absurd h hx3
      · exact h
    have hsame : ∀ g2 ∈ K,
        (l.filter fun x => decide (key x = g2))
          = ((l.filter fun x => !(decide (key x = g))).filter
              fun x => decide (key x = g2)) := by
      intro g2 hg2
      rw [List.filter_filter]
      apply List.filter_congr
      intro x _
      by_cases h : key x = g2
      · have hne : g2 ≠ g := fun hcontra => hnd.1 (hcontra ▸ hg2)
        have hxg : ¬ key x = g := by rw [h]; exact hne
        simp [h, hxg, hne]
      · simp [h]
    simp only [List.map_cons, List.sum_cons]
    have hmap : (K.map fun g2 =>
          ((l.filter fun x => decide (key x = g2)).map Sample.energy_kwh_step).sum)
        = (K.map fun g2 =>
          (((l.filter fun x => !(decide (key x = g))).filter
              fun x => decide (key x = g2)).map Sample.energy_kwh_step).sum) :=
      List.map_congr_left fun g2 hg2 => by rw [hsame g2 hg2]
    rw [hmap, ih hnd.2 (l.filter fun x => !(decide (key x = g))) hcov2]
    exact sum_map_filter_split (fun x => decide (key x = g)) Sample.energy_kwh_step l

/-- C8: for every subset and every grouping key, the per-group energy totals
sum to the ungrouped total energy computed by `aggregate_energy` on the same
subset. -/
theorem C8_grouped_totals {κ : Type} [DecidableEq κ] (df : List Sample)
    (key : Sample → κ) :
    ((energy_by_key df key).map fun g => g.2).sum = (aggregate_energy df).1 := by
  have h := grouped_sum_eq key ((df.map key).dedup) (List.nodup_dedup _) df
    (fun x hx => List.mem_dedup.mpr (List.mem_map_of_mem key hx))
  simp only [energy_by_key, aggregate_energy, List.map_map]
  exact h

/-- Witness for C8 on a concrete two-sample dataset grouped by floor. -/
theorem C8_grouped_totals_witness :
    ((energy_by_key [sample_a, sample_b] Sample.floor).map fun g => g.2).sum
      = (aggregate_energy [sample_a, sample_b]).1 :=
  C8_grouped_totals [sample_a, sample_b] Sample.floor

end BEMS
